import Mathlib

/-!
Verification of the CatalogClient component (`src/frontend/src/App.js`) of the
AppChecker repository. The component is a single React function `App`; we embed
its query-construction logic, its debounced-search pipeline, its backend
operation handlers and its small formatting helpers as Lean definitions, and
prove the specified properties about them.
-/

namespace AppChecker

/-- The five search/filter/sort inputs of the component
(`searchTerm`, `selectedCategory`, `selectedFileType`, `sortBy`, `sortOrder`,
`App.js` lines 22-26). -/
structure Filters where
  searchTerm : String
  selectedCategory : String
  selectedFileType : String
  sortBy : String
  sortOrder : String
deriving DecidableEq, Repr

/-- Initial values of the five inputs (`useState` initialisers, lines 22-26). -/
def defaultFilters : Filters :=
  { searchTerm := "", selectedCategory := "All", selectedFileType := "All"
  , sortBy := "upload_date", sortOrder := "desc" }

/-- One of the five filter inputs, used to address a field of `Filters`. -/
inductive Field where
  | search
  | category
  | fileType
  | sortKey
  | sortDir
deriving DecidableEq, Repr

/-- Updating one input, as the corresponding `set…` state setter does. -/
def setField (f : Filters) : Field → String → Filters
  | .search, v => { f with searchTerm := v }
  | .category, v => { f with selectedCategory := v }
  | .fileType, v => { f with selectedFileType := v }
  | .sortKey, v => { f with sortBy := v }
  | .sortDir, v => { f with sortOrder := v }

/-- The `URLSearchParams` entries built by `searchFiles` (lines 82-87): `search`
is appended when `searchTerm` is truthy (a non-empty string), `category` and
`file_type` when different from `"All"`, and `sort_by` / `sort_order` always. -/
def searchParams (f : Filters) : List (String × String) :=
  (if f.searchTerm ≠ "" then [("search", f.searchTerm)] else []) ++
  (if f.selectedCategory ≠ "All" then [("category", f.selectedCategory)] else []) ++
  (if f.selectedFileType ≠ "All" then [("file_type", f.selectedFileType)] else []) ++
  [("sort_by", f.sortBy), ("sort_order", f.sortOrder)]

/-- UTF-8 bytes of a code point, as natural numbers. -/
def utf8Bytes (n : Nat) : List Nat :=
  if n < 128 then [n]
  else if n < 2048 then [192 + n / 64, 128 + n % 64]
  else if n < 65536 then [224 + n / 4096, 128 + (n / 64) % 64, 128 + n % 64]
  else [240 + n / 262144, 128 + (n / 4096) % 64, 128 + (n / 64) % 64, 128 + n % 64]

/-- Upper-case hexadecimal digit. -/
def hexDigit (n : Nat) : Char :=
  if n < 10 then Char.ofNat (48 + n) else Char.ofNat (55 + n)

/-- Percent-encoding of one byte. -/
def percentByte (b : Nat) : List Char :=
  ['%', hexDigit (b / 16 % 16), hexDigit (b % 16)]

/-- Characters `URLSearchParams` serialisation leaves unescaped
(`application/x-www-form-urlencoded`): ASCII alphanumerics and `*`, `-`, `.`, `_`. -/
def isFormSafe (c : Char) : Bool :=
  c.isAlphanum || c == '*' || c == '-' || c == '.' || c == '_'

/-- `application/x-www-form-urlencoded` encoding of one character. -/
def formEncodeChar (c : Char) : List Char :=
  if isFormSafe c then [c]
  else if c = ' ' then ['+']
  else (utf8Bytes c.toNat).flatMap percentByte

/-- `application/x-www-form-urlencoded` encoding of a string, as
`URLSearchParams.toString` applies to each key and value. -/
def formEncode (s : String) : String :=
  String.mk (s.data.flatMap formEncodeChar)

/-- The query string `URLSearchParams.toString` produces from the entries of
`searchParams`: `key=value` pairs joined by `&` (line 89 interpolates `params`
into the search URL, which stringifies it this way). -/
def queryString (f : Filters) : String :=
  String.intercalate "&"
    ((searchParams f).map (fun p => formEncode p.1 ++ "=" ++ formEncode p.2))

/-- A backend request the component can issue (section 6 of the spec lists the
REST surface; constructors carry what the client puts in the request). -/
inductive Request where
  | getCategories
  | getFiles
  | searchReq (params : List (String × String))
  | getStats
  | uploadReq (form : List (String × String))
  | downloadReq (fileId : String)
  | deleteReq (fileId : String)
deriving DecidableEq, Repr

/-- The choice the debounce callback makes when the timer fires (lines 43-48):
`searchFiles()` when some filter is non-default, `fetchFiles()` otherwise. -/
def debounceDispatch (f : Filters) : Request :=
  if f.searchTerm ≠ "" ∨ f.selectedCategory ≠ "All" ∨ f.selectedFileType ≠ "All" then
    Request.searchReq (searchParams f)
  else
    Request.getFiles

/-!
The debounced query pipeline (the `useEffect` at lines 42-52 together with the
dispatched `fetchFiles` / `searchFiles` calls): each change of one of the five
inputs runs the effect cleanup, which `clearTimeout`s the pending timer, and
then schedules a fresh 300ms timer; a timer that fires dispatches exactly one
request from the current inputs; a response handler runs `setFiles(data)` on a
2xx response with no staleness check (lines 69-71 and 90-92).  Timers and
requests carry fresh numeric identifiers so that cancellation and supersession
can be stated.
-/

/-- State of the query pipeline.  `pending` is the one scheduled, uncleared,
unfired timer (a `setTimeout` handle); `cancelled` records every handle passed
to `clearTimeout`; `nextReq` numbers dispatched requests in issue order;
`inFlight` holds dispatched request ids whose response has not arrived;
`issued` logs every dispatched request; `staleOverwrite` records whether a
response to a superseded request has ever overwritten `files`. -/
structure QState where
  filters : Filters
  files : List String
  nextTimer : Nat
  pending : Option Nat
  cancelled : List Nat
  nextReq : Nat
  inFlight : List Nat
  issued : List Request
  staleOverwrite : Bool
deriving DecidableEq, Repr

/-- Initial pipeline state: default inputs, empty list, no timer, nothing
dispatched (lines 5 and 22-26). -/
def initQ : QState :=
  { filters := defaultFilters, files := [], nextTimer := 0, pending := none
  , cancelled := [], nextReq := 0, inFlight := [], issued := []
  , staleOverwrite := false }

/-- An event of the pipeline: a user edit of one input, the expiry of a timer,
or the arrival of a backend response (`ok` is whether it was 2xx, `data` the
decoded body). -/
inductive QEvent where
  | input (fd : Field) (v : String)
  | timerFire (id : Nat)
  | response (id : Nat) (ok : Bool) (data : List String)
deriving DecidableEq, Repr

/-- One step of the pipeline.

An `input` runs the effect cleanup (`clearTimeout` of the pending handle,
line 51), stores the new value, and schedules a fresh timer (line 43).  A
`timerFire` is a no-op unless its handle is the pending one (a cleared or
already-fired timer never runs); the pending timer dispatches
`debounceDispatch` of the current inputs as a fresh numbered request.  A
`response` is a no-op unless its id is in flight; the handler replaces `files`
whenever the response is 2xx — the code has no request-generation check — and
`staleOverwrite` is set when that happens for a request superseded by a
later-issued one (`id + 1 < nextReq`). -/
def stepQ (s : QState) : QEvent → QState
  | .input fd v =>
      { s with
        filters := setField s.filters fd v
        nextTimer := s.nextTimer + 1
        pending := some s.nextTimer
        cancelled := match s.pending with
          | some t => t :: s.cancelled
          | none => s.cancelled }
  | .timerFire id =>
      if s.pending = some id then
        { s with
          pending := none
          nextReq := s.nextReq + 1
          inFlight := s.nextReq :: s.inFlight
          issued := s.issued ++ [debounceDispatch s.filters] }
      else s
  | .response id ok data =>
      if id ∈ s.inFlight then
        { s with
          inFlight := s.inFlight.erase id
          files := if ok then data else s.files
          staleOverwrite :=
            s.staleOverwrite || (ok && decide (id + 1 < s.nextReq)) }
      else s

/-- Running the pipeline over a list of events. -/
def runQ (s : QState) (es : List QEvent) : QState :=
  es.foldl stepQ s

/-!
The remaining component state and the backend operation handlers
(`fetchCategories`, `fetchFiles`, `searchFiles`, `fetchStats`,
`handleFileSelect`, `handleImageSelect`, `handleUpload`, `handleDownload`,
`handleDelete`, `clearFilters`).  Each handler is a function from the state and
the outcome of its backend call to the new state, the list of requests it
issued, and the `console.error` log entries it produced.  File records and
image files are represented by opaque strings.
-/

/-- The `stats` state object (lines 12-17). -/
structure Stats where
  total_files : Nat
  total_downloads : Nat
  category_stats : List (String × Nat)
  popular_files : List String
deriving DecidableEq, Repr

/-- The component state the handlers read and write (`useState` hooks, lines
5-27; `viewMode` and the image-modal state only affect rendering and are
omitted). -/
structure ClientState where
  files : List String
  selectedFile : Option String
  selectedImages : List String
  description : String
  category : String
  categories : List String
  uploading : Bool
  stats : Stats
  message : String
  searchTerm : String
  selectedCategory : String
  selectedFileType : String
  sortBy : String
  sortOrder : String
  isSearching : Bool
deriving DecidableEq, Repr

/-- The initial state (the `useState` initialisers, lines 5-27). -/
def initState : ClientState :=
  { files := [], selectedFile := none, selectedImages := [], description := ""
  , category := "Other", categories := ["Other"], uploading := false
  , stats := { total_files := 0, total_downloads := 0, category_stats := []
             , popular_files := [] }
  , message := "", searchTerm := "", selectedCategory := "All"
  , selectedFileType := "All", sortBy := "upload_date", sortOrder := "desc"
  , isSearching := false }

/-- Outcome of a plain GET whose body is only read on a 2xx response:
a 2xx response with decoded body, a non-2xx response, or a thrown network
error. -/
inductive FetchOutcome (α : Type) where
  | ok (data : α)
  | httpError
  | networkError
deriving DecidableEq, Repr

/-- Outcome of the upload POST (lines 152-157): the handler decodes the body
in every response case and reads `result.detail` on non-2xx. -/
inductive UploadOutcome where
  | ok
  | httpError (detail : String)
  | networkError
deriving DecidableEq, Repr

/-- Outcome of the DELETE (lines 212-221): any response carries a 2xx flag, a
decoded `success` flag and an optional `message`; a network error carries the
exception message. -/
inductive DeleteOutcome where
  | response (ok2xx : Bool) (success : Bool) (msg : Option String)
  | networkError (errMsg : String)
deriving DecidableEq, Repr

/-- Result of running one handler: the new state, the backend requests it
issued (in order), and its `console.error` output. -/
structure OpResult where
  state : ClientState
  requests : List Request
  log : List String
deriving DecidableEq, Repr

/-- JavaScript `a || b` on an optional string: a missing or empty (falsy)
string falls back to the default. -/
def jsOr (m : Option String) (d : String) : String :=
  match m with
  | some s => if s = "" then d else s
  | none => d

/-- `fetchCategories` (lines 54-64): a 2xx response replaces the category
list; a non-2xx response does nothing; a network error is only logged. -/
def fetchCategoriesOp (s : ClientState) (o : FetchOutcome (List String)) : OpResult :=
  match o with
  | .ok cats => { state := { s with categories := cats }
                , requests := [.getCategories], log := [] }
  | .httpError => { state := s, requests := [.getCategories], log := [] }
  | .networkError => { state := s, requests := [.getCategories]
                     , log := ["Error fetching categories:"] }

/-- `fetchFiles` (lines 66-77): a 2xx response replaces the file list; a
non-2xx response does nothing; a network error is logged and sets the
message. -/
def fetchFilesOp (s : ClientState) (o : FetchOutcome (List String)) : OpResult :=
  match o with
  | .ok data => { state := { s with files := data }
                , requests := [.getFiles], log := [] }
  | .httpError => { state := s, requests := [.getFiles], log := [] }
  | .networkError => { state := { s with message := "Error loading files" }
                     , requests := [.getFiles]
                     , log := ["Error fetching files:"] }

/-- `searchFiles` (lines 79-100): builds `searchParams` from the current
inputs and issues the search request; a 2xx response replaces the file list; a
non-2xx response does nothing; a network error is logged and sets the message;
`isSearching` is set in a `finally`, so it is `false` in every final state. -/
def searchFilesOp (s : ClientState) (o : FetchOutcome (List String)) : OpResult :=
  let f : Filters := { searchTerm := s.searchTerm
                     , selectedCategory := s.selectedCategory
                     , selectedFileType := s.selectedFileType
                     , sortBy := s.sortBy, sortOrder := s.sortOrder }
  match o with
  | .ok data => { state := { s with files := data, isSearching := false }
                , requests := [.searchReq (searchParams f)], log := [] }
  | .httpError => { state := { s with isSearching := false }
                  , requests := [.searchReq (searchParams f)], log := [] }
  | .networkError =>
      { state := { s with message := "Error searching files", isSearching := false }
      , requests := [.searchReq (searchParams f)]
      , log := ["Error searching files:"] }

/-- `fetchStats` (lines 102-112): a 2xx response replaces the stats; a non-2xx
response does nothing; a network error is only logged. -/
def fetchStatsOp (s : ClientState) (o : FetchOutcome Stats) : OpResult :=
  match o with
  | .ok data => { state := { s with stats := data }
                , requests := [.getStats], log := [] }
  | .httpError => { state := s, requests := [.getStats], log := [] }
  | .networkError => { state := s, requests := [.getStats]
                     , log := ["Error fetching stats:"] }

/-- `handleFileSelect` (lines 114-118): stores `event.target.files[0]` and
clears the message. -/
def handleFileSelect (s : ClientState) (file : Option String) : ClientState :=
  { s with selectedFile := file, message := "" }

/-- `handleImageSelect` (lines 120-128): more than 5 chosen images only sets
the message and returns, leaving the previous selection; otherwise the
selection is stored and the message cleared. -/
def handleImageSelect (s : ClientState) (chosen : List String) : ClientState :=
  if chosen.length > 5 then { s with message := "Maximum 5 images allowed" }
  else { s with selectedImages := chosen, message := "" }

/-- The multipart form `handleUpload` builds (lines 139-149): the file, the
description when truthy (non-empty), the category, and one `images` entry per
selected image. -/
def formEntries (file : String) (s : ClientState) : List (String × String) :=
  ("file", file) ::
    ((if s.description ≠ "" then [("description", s.description)] else []) ++
     [("category", s.category)] ++
     s.selectedImages.map (fun img => ("images", img)))

/-- `handleUpload` (lines 130-178): with no selected file it sets the message
and issues nothing; otherwise it POSTs the form; a 2xx response clears the
whole form and triggers one `fetchFiles` and one `fetchStats`; a non-2xx
response surfaces `result.detail`; a network error is logged and surfaces a
fixed message; `uploading` ends `false` via the `finally`. -/
def handleUpload (s : ClientState) (o : UploadOutcome) : OpResult :=
  match s.selectedFile with
  | none => { state := { s with message := "Please select a file first" }
            , requests := [], log := [] }
  | some file =>
    match o with
    | .ok =>
        { state :=
            { s with
              message := "File uploaded successfully!",
              selectedFile := none,
              selectedImages := [],
              description := "",
              category := "Other",
              uploading := false }
        , requests := [.uploadReq (formEntries file s), .getFiles, .getStats]
        , log := [] }
    | .httpError detail =>
        { state := { s with message := "Upload failed: " ++ detail, uploading := false }
        , requests := [.uploadReq (formEntries file s)], log := [] }
    | .networkError =>
        { state :=
            { s with message := "Upload failed: Network error", uploading := false }
        , requests := [.uploadReq (formEntries file s)]
        , log := ["Upload error:"] }

/-- `handleDownload` (lines 180-203): a 2xx response saves the blob and
triggers one `fetchStats`; a non-2xx response sets a fixed message; a network
error is logged and sets a fixed message. -/
def handleDownload (s : ClientState) (fileId : String) (o : FetchOutcome String) : OpResult :=
  match o with
  | .ok _blob => { state := s
                 , requests := [.downloadReq fileId, .getStats], log := [] }
  | .httpError => { state := { s with message := "Download failed" }
                  , requests := [.downloadReq fileId], log := [] }
  | .networkError => { state := { s with message := "Download failed: Network error" }
                     , requests := [.downloadReq fileId]
                     , log := ["Download error:"] }

/-- `handleDelete` (lines 205-235): without confirmation nothing happens; with
it the DELETE is issued; a response with 2xx and `success` sets the success
message and triggers one `fetchFiles` and one `fetchStats`; any other response
surfaces `result.message || Unknown error`; a network error is logged and
surfaces the exception message. -/
def handleDelete (s : ClientState) (fileId : String) (confirmed : Bool)
    (o : DeleteOutcome) : OpResult :=
  if confirmed then
    match o with
    | .response ok2xx success msg =>
        if ok2xx && success then
          { state := { s with message := "File deleted successfully" }
          , requests := [.deleteReq fileId, .getFiles, .getStats], log := [] }
        else
          { state :=
              { s with message := "Delete failed: " ++ jsOr msg "Unknown error" }
          , requests := [.deleteReq fileId], log := [] }
    | .networkError e =>
        { state := { s with message := "Delete failed: " ++ e }
        , requests := [.deleteReq fileId], log := ["Delete error:"] }
  else { state := s, requests := [], log := [] }

/-- `clearFilters` (lines 237-243). -/
def clearFilters (s : ClientState) : ClientState :=
  { s with
    searchTerm := "",
    selectedCategory := "All",
    selectedFileType := "All",
    sortBy := "upload_date",
    sortOrder := "desc" }

/-!
A run of the whole component: every user interaction or completed backend
operation is one event, and a run folds the corresponding handler over the
state, accumulating the issued requests.  This is the synchronous event model
(each operation completes atomically); the asynchronous query pipeline is the
`QState` machine above.
-/

/-- One event of the component. -/
inductive AppEvent where
  | fileSelect (f : Option String)
  | imageSelect (chosen : List String)
  | editDescription (d : String)
  | editCategory (c : String)
  | upload (o : UploadOutcome)
  | download (fileId : String) (o : FetchOutcome String)
  | deleteFile (fileId : String) (confirmed : Bool) (o : DeleteOutcome)
  | categoriesFetch (o : FetchOutcome (List String))
  | filesFetch (o : FetchOutcome (List String))
  | searchRun (o : FetchOutcome (List String))
  | statsFetch (o : FetchOutcome Stats)
  | setSearch (v : String)
  | setCategoryFilter (v : String)
  | setFileTypeFilter (v : String)
  | setSort (b ord : String)
  | clearAllFilters
deriving DecidableEq, Repr

/-- Dispatching one event to its handler.  The pure UI setters issue no
requests (the `onChange` handlers at lines 507, 549, 623, 637, 655, 674-678
and `clearFilters`). -/
def stepApp (s : ClientState) : AppEvent → OpResult
  | .fileSelect f => { state := handleFileSelect s f, requests := [], log := [] }
  | .imageSelect chosen =>
      { state := handleImageSelect s chosen, requests := [], log := [] }
  | .editDescription d =>
      { state := { s with description := d }, requests := [], log := [] }
  | .editCategory c =>
      { state := { s with category := c }, requests := [], log := [] }
  | .upload o => handleUpload s o
  | .download fileId o => handleDownload s fileId o
  | .deleteFile fileId confirmed o => handleDelete s fileId confirmed o
  | .categoriesFetch o => fetchCategoriesOp s o
  | .filesFetch o => fetchFilesOp s o
  | .searchRun o => searchFilesOp s o
  | .statsFetch o => fetchStatsOp s o
  | .setSearch v => { state := { s with searchTerm := v }, requests := [], log := [] }
  | .setCategoryFilter v =>
      { state := { s with selectedCategory := v }, requests := [], log := [] }
  | .setFileTypeFilter v =>
      { state := { s with selectedFileType := v }, requests := [], log := [] }
  | .setSort b ord =>
      { state := { s with sortBy := b, sortOrder := ord }, requests := [], log := [] }
  | .clearAllFilters => { state := clearFilters s, requests := [], log := [] }

/-- Running the component over an event list, accumulating issued requests. -/
def runApp (s : ClientState) : List AppEvent → ClientState × List Request
  | [] => (s, [])
  | e :: es =>
      let r := stepApp s e
      let rest := runApp r.state es
      (rest.1, r.requests ++ rest.2)

/-- Number of `images` entries of a multipart form. -/
def imagesCount (form : List (String × String)) : Nat :=
  (form.filter (fun e => e.1 == "images")).length

/-!
The `formatFileSize` helper (lines 245-251):

  if (bytes === 0) return the string zero-Bytes;
  i = Math.floor(Math.log(bytes) / Math.log(1024));
  return (number) + (space) + sizes[i];

For `bytes ≥ 1`, `Math.floor (Math.log bytes / Math.log 1024)` is the floor of
the base-1024 logarithm, which is `Nat.log 1024 bytes`.  We model the unit
selection: the JS array access `sizes[i]` is `sizes.get? i`, `none` standing
for the out-of-bounds `undefined`.  The numeric prefix (`toFixed`/`parseFloat`
floating-point rendering) is not modelled; the claims are about the unit.
-/

/-- The unit array `sizes` of `formatFileSize` (line 248). -/
def sizes : List String := ["Bytes", "KB", "MB", "GB"]

/-- The unit `formatFileSize` appends: the unit of the zero special case for
0, otherwise `sizes[Math.floor(Math.log bytes / Math.log 1024)]`. -/
def formatFileSizeUnit (bytes : Nat) : Option String :=
  if bytes = 0 then some "Bytes"
  else sizes.get? (Nat.log 1024 bytes)

/-!
Theorems for the claims.
-/

/-- C1: in the query pipeline the stale-overwrite state is reachable, contrary
to the claimed invariant.  The trace issues a request for `search=a`, then a
superseding request for `search=ab`; the newer response arrives first and sets
the list to `x`; the older, stale response then arrives and overwrites the list
with `y`, because the response handler has no request-generation check. -/
theorem C1_stale_overwrite_reachable :
    (runQ initQ
      [ .input .search "a", .timerFire 0, .input .search "ab", .timerFire 1
      , .response 1 true ["x"], .response 0 true ["y"] ]).staleOverwrite = true ∧
    (runQ initQ
      [ .input .search "a", .timerFire 0, .input .search "ab", .timerFire 1
      , .response 1 true ["x"] ]).files = ["x"] ∧
    (runQ initQ
      [ .input .search "a", .timerFire 0, .input .search "ab", .timerFire 1
      , .response 1 true ["x"], .response 0 true ["y"] ]).files = ["y"] := by
  refine ⟨rfl, rfl, rfl⟩

/-- C2: whenever some filter is non-default, the search query contains exactly
the non-default fields among `search`, `category`, `file_type`: each appears
(with its value) iff its value is non-default. -/
theorem C2_query_exactly_nondefault_fields (f : Filters)
    (h : f.searchTerm ≠ "" ∨ f.selectedCategory ≠ "All" ∨ f.selectedFileType ≠ "All") :
    ("search" ∈ (searchParams f).map Prod.fst ↔ f.searchTerm ≠ "") ∧
    ("category" ∈ (searchParams f).map Prod.fst ↔ f.selectedCategory ≠ "All") ∧
    ("file_type" ∈ (searchParams f).map Prod.fst ↔ f.selectedFileType ≠ "All") ∧
    (("search", f.searchTerm) ∈ searchParams f ↔ f.searchTerm ≠ "") ∧
    (("category", f.selectedCategory) ∈ searchParams f ↔ f.selectedCategory ≠ "All") ∧
    (("file_type", f.selectedFileType) ∈ searchParams f ↔ f.selectedFileType ≠ "All") := by
  unfold searchParams
  split_ifs <;> simp_all

/-- C2 witness: the exactly-the-non-default-fields property evaluated at a
concrete non-default combination. -/
theorem C2_query_exactly_nondefault_fields_witness :
    (("game" : String) ≠ "" ∨ ("Games" : String) ≠ "All" ∨ ("All" : String) ≠ "All") ∧
    (("search" ∈ (searchParams { searchTerm := "game", selectedCategory := "Games"
                               , selectedFileType := "All", sortBy := "upload_date"
                               , sortOrder := "desc" }).map Prod.fst ↔ ("game" : String) ≠ "") ∧
     ("category" ∈ (searchParams { searchTerm := "game", selectedCategory := "Games"
                                 , selectedFileType := "All", sortBy := "upload_date"
                                 , sortOrder := "desc" }).map Prod.fst ↔ ("Games" : String) ≠ "All") ∧
     ("file_type" ∈ (searchParams { searchTerm := "game", selectedCategory := "Games"
                                  , selectedFileType := "All", sortBy := "upload_date"
                                  , sortOrder := "desc" }).map Prod.fst ↔ ("All" : String) ≠ "All") ∧
     (("search", ("game" : String)) ∈ searchParams { searchTerm := "game", selectedCategory := "Games"
                                                   , selectedFileType := "All", sortBy := "upload_date"
                                                   , sortOrder := "desc" } ↔ ("game" : String) ≠ "") ∧
     (("category", ("Games" : String)) ∈ searchParams { searchTerm := "game", selectedCategory := "Games"
                                                      , selectedFileType := "All", sortBy := "upload_date"
                                                      , sortOrder := "desc" } ↔ ("Games" : String) ≠ "All") ∧
     (("file_type", ("All" : String)) ∈ searchParams { searchTerm := "game", selectedCategory := "Games"
                                                     , selectedFileType := "All", sortBy := "upload_date"
                                                     , sortOrder := "desc" } ↔ ("All" : String) ≠ "All")) :=
  ⟨Or.inl (by decide),
   C2_query_exactly_nondefault_fields
     { searchTerm := "game", selectedCategory := "Games", selectedFileType := "All"
     , sortBy := "upload_date", sortOrder := "desc" } (Or.inl (by decide))⟩

/-- C5: when the debounce timer fires with every filter at its default, the
one request dispatched is the unfiltered full-list fetch, never the search
endpoint. -/
theorem C5_default_filters_fetch_all (s : QState) (id : Nat)
    (hp : s.pending = some id) (hf : s.filters = defaultFilters) :
    (stepQ s (.timerFire id)).issued = s.issued ++ [Request.getFiles] ∧
    ∀ ps, (stepQ s (.timerFire id)).issued ≠ s.issued ++ [Request.searchReq ps] := by
  have hd : debounceDispatch s.filters = Request.getFiles := by
    rw [hf]; rfl
  refine ⟨by simp [stepQ, hp, hd], fun ps => by simp [stepQ, hp, hd]⟩

/-- C5 witness: the default-filters dispatch evaluated at a concrete pipeline
state with a pending timer. -/
theorem C5_default_filters_fetch_all_witness :
    ({ initQ with pending := some 0 } : QState).pending = some 0 ∧
    ({ initQ with pending := some 0 } : QState).filters = defaultFilters ∧
    (stepQ { initQ with pending := some 0 } (.timerFire 0)).issued
      = ({ initQ with pending := some 0 } : QState).issued ++ [Request.getFiles] ∧
    ∀ ps, (stepQ { initQ with pending := some 0 } (.timerFire 0)).issued
      ≠ ({ initQ with pending := some 0 } : QState).issued ++ [Request.searchReq ps] :=
  ⟨rfl, rfl,
   (C5_default_filters_fetch_all { initQ with pending := some 0 } 0 rfl rfl).1,
   (C5_default_filters_fetch_all { initQ with pending := some 0 } 0 rfl rfl).2⟩

/-- C6: the query string built for search `game` with default category and
file type and download-count descending sort is exactly
`search=game&sort_by=download_count&sort_order=desc`. -/
theorem C6_example_query_string :
    queryString { searchTerm := "game", selectedCategory := "All"
                , selectedFileType := "All", sortBy := "download_count"
                , sortOrder := "desc" }
      = "search=game&sort_by=download_count&sort_order=desc" := by
  rfl

/-- C10: `formatFileSize` returns the zero string for 0; for `1 ≤ bytes <
1024 ^ 4` the unit index stays in bounds and the unit is one of the four list
entries; for `bytes ≥ 1024 ^ 4` the unit lookup falls outside the list. -/
theorem C10_format_file_size_unit_bounds :
    formatFileSizeUnit 0 = some "Bytes" ∧
    ∀ b : Nat, 1 ≤ b →
      (b < 1024 ^ 4 → ∃ u, formatFileSizeUnit b = some u ∧ u ∈ sizes) ∧
      (1024 ^ 4 ≤ b → formatFileSizeUnit b = none) := by
  refine ⟨rfl, fun b hb => ⟨fun hlt => ?_, fun hge => ?_⟩⟩
  · have hb0 : b ≠ 0 := by omega
    have hlog : Nat.log 1024 b < 4 :=
      (Nat.lt_pow_iff_log_lt (by norm_num) hb0).mp hlt
    have hu : formatFileSizeUnit b = sizes.get? (Nat.log 1024 b) := by
      simp [formatFileSizeUnit, hb0]
    rw [hu]
    exact (by decide : ∀ i, i < 4 → ∃ u, sizes.get? i = some u ∧ u ∈ sizes)
      (Nat.log 1024 b) hlog
  · have hb0 : b ≠ 0 := by omega
    have hlog : 4 ≤ Nat.log 1024 b :=
      (Nat.pow_le_iff_le_log (by norm_num) hb0).mp hge
    obtain ⟨k, hk⟩ := Nat.exists_eq_add_of_le hlog
    simp only [formatFileSizeUnit, if_neg hb0, hk, Nat.add_comm 4 k]
    rfl

/-- C10 witness: the bounds evaluated at 5 bytes (in range) and at
`1024 ^ 4` bytes (out of range). -/
theorem C10_format_file_size_unit_bounds_witness :
    (1 ≤ 5 ∧ 5 < 1024 ^ 4 ∧ ∃ u, formatFileSizeUnit 5 = some u ∧ u ∈ sizes) ∧
    (1 ≤ 1024 ^ 4 ∧ formatFileSizeUnit (1024 ^ 4) = none) :=
  ⟨⟨by norm_num, by norm_num,
    (C10_format_file_size_unit_bounds.2 5 (by norm_num)).1 (by norm_num)⟩,
   ⟨by norm_num,
    (C10_format_file_size_unit_bounds.2 (1024 ^ 4) (by norm_num)).2 (le_refl _)⟩⟩

/-- C3 counterexample: a non-2xx response to the full-list fetch produces no
displayed message at all — the state, message included, is exactly the prior
state (and the prior message is empty, so nothing is displayed); likewise a
failed stats fetch never surfaces a message.  The claim asserts every non-2xx
response outside the category fetch produces a displayed message. -/
theorem C3_silent_failures_counterexample :
    (fetchFilesOp initState .httpError).state = initState ∧
    initState.message = "" ∧
    (fetchStatsOp initState .networkError).state = initState ∧
    (fetchStatsOp initState .networkError).log = ["Error fetching stats:"] := by
  refine ⟨rfl, rfl, rfl, rfl⟩

/-- C3 amended: upload, download and delete failures each set a displayed
message; the full-list fetch and the search set a message only on a network
error, their non-2xx responses being entirely silent; the stats fetch, like
the category fetch, never surfaces a message (its network error is only
logged); and in every failure case all prior state other than the message
(and the transient `uploading` / `isSearching` flags) is left unchanged. -/
theorem C3_failure_handling_amended :
    (∀ s : ClientState, fetchCategoriesOp s .httpError
        = { state := s, requests := [.getCategories], log := [] }) ∧
    (∀ s : ClientState, fetchCategoriesOp s .networkError
        = { state := s, requests := [.getCategories]
          , log := ["Error fetching categories:"] }) ∧
    (∀ s : ClientState, fetchFilesOp s .httpError
        = { state := s, requests := [.getFiles], log := [] }) ∧
    (∀ s : ClientState, fetchFilesOp s .networkError
        = { state := { s with message := "Error loading files" }
          , requests := [.getFiles], log := ["Error fetching files:"] }) ∧
    (∀ s : ClientState, (searchFilesOp s .httpError).state
        = { s with isSearching := false }) ∧
    (∀ s : ClientState, (searchFilesOp s .networkError).state
        = { s with message := "Error searching files", isSearching := false }) ∧
    (∀ s : ClientState, fetchStatsOp s .httpError
        = { state := s, requests := [.getStats], log := [] }) ∧
    (∀ s : ClientState, fetchStatsOp s .networkError
        = { state := s, requests := [.getStats], log := ["Error fetching stats:"] }) ∧
    (∀ (s : ClientState) (f detail : String),
        (handleUpload { s with selectedFile := some f } (.httpError detail)).state
          = { s with
              selectedFile := some f,
              uploading := false,
              message := "Upload failed: " ++ detail }) ∧
    (∀ (s : ClientState) (f : String),
        (handleUpload { s with selectedFile := some f } .networkError).state
          = { s with
              selectedFile := some f,
              uploading := false,
              message := "Upload failed: Network error" }) ∧
    (∀ (s : ClientState) (fileId : String),
        (handleDownload s fileId .httpError).state
          = { s with message := "Download failed" }) ∧
    (∀ (s : ClientState) (fileId : String),
        (handleDownload s fileId .networkError).state
          = { s with message := "Download failed: Network error" }) ∧
    (∀ (s : ClientState) (fileId : String) (b : Bool) (msg : Option String),
        (handleDelete s fileId true (.response false b msg)).state
          = { s with message := "Delete failed: " ++ jsOr msg "Unknown error" }) ∧
    (∀ (s : ClientState) (fileId : String) (msg : Option String),
        (handleDelete s fileId true (.response true false msg)).state
          = { s with message := "Delete failed: " ++ jsOr msg "Unknown error" }) ∧
    (∀ (s : ClientState) (fileId e : String),
        (handleDelete s fileId true (.networkError e)).state
          = { s with message := "Delete failed: " ++ e }) := by
  refine ⟨fun s => rfl, fun s => rfl, fun s => rfl, fun s => rfl, fun s => rfl,
    fun s => rfl, fun s => rfl, fun s => rfl, fun s f detail => rfl, fun s f => rfl,
    fun s fileId => rfl, fun s fileId => rfl, fun s fileId b msg => rfl,
    fun s fileId msg => rfl, fun s fileId e => rfl⟩

/-- C7: an upload the backend accepts clears the whole form (file, images,
description, category back to `Other`) and triggers exactly one file-list
refresh and one stats refresh; a successful delete likewise triggers exactly
one of each. -/
theorem C7_success_clears_form_one_refresh_each (s : ClientState)
    (f fileId : String) (msg : Option String) :
    (handleUpload { s with selectedFile := some f } .ok).state.selectedFile = none ∧
    (handleUpload { s with selectedFile := some f } .ok).state.selectedImages = [] ∧
    (handleUpload { s with selectedFile := some f } .ok).state.description = "" ∧
    (handleUpload { s with selectedFile := some f } .ok).state.category = "Other" ∧
    (handleUpload { s with selectedFile := some f } .ok).requests.count .getFiles = 1 ∧
    (handleUpload { s with selectedFile := some f } .ok).requests.count .getStats = 1 ∧
    (handleDelete s fileId true (.response true true msg)).requests.count .getFiles = 1 ∧
    (handleDelete s fileId true (.response true true msg)).requests.count .getStats = 1 := by
  refine ⟨rfl, rfl, rfl, rfl, ?_, ?_, ?_, ?_⟩ <;>
    simp [handleUpload, handleDelete, List.count_cons]

/-- C8 counterexample: on a network error the delete handler surfaces the
thrown exception message, which is neither a backend-provided message (the
backend never responded) nor the code's one generic fallback `Unknown
error`. -/
theorem C8_network_error_message_counterexample :
    (handleDelete initState "7" true (.networkError "boom")).state.message
      = "Delete failed: boom" ∧
    (handleDelete initState "7" true (.networkError "boom")).state.message
      ≠ "Delete failed: Unknown error" := by
  refine ⟨rfl, by decide⟩

/-- C8 amended: delete issues no request without confirmation; on success it
triggers one file-list and one stats refresh; a failing backend response
surfaces the backend message, or the fallback `Unknown error` when the backend
supplies none (or an empty one); a network error surfaces the exception
message; every failure leaves the file list unchanged. -/
theorem C8_delete_handling_amended :
    (∀ (s : ClientState) (fileId : String) (o : DeleteOutcome),
        handleDelete s fileId false o = { state := s, requests := [], log := [] }) ∧
    (∀ (s : ClientState) (fileId : String) (msg : Option String),
        handleDelete s fileId true (.response true true msg)
          = { state := { s with message := "File deleted successfully" }
            , requests := [.deleteReq fileId, .getFiles, .getStats], log := [] }) ∧
    (∀ (s : ClientState) (fileId : String) (b : Bool) (msg : Option String),
        handleDelete s fileId true (.response false b msg)
          = { state := { s with message := "Delete failed: " ++ jsOr msg "Unknown error" }
            , requests := [.deleteReq fileId], log := [] }) ∧
    (∀ (s : ClientState) (fileId : String) (msg : Option String),
        handleDelete s fileId true (.response true false msg)
          = { state := { s with message := "Delete failed: " ++ jsOr msg "Unknown error" }
            , requests := [.deleteReq fileId], log := [] }) ∧
    (∀ (s : ClientState) (fileId e : String),
        handleDelete s fileId true (.networkError e)
          = { state := { s with message := "Delete failed: " ++ e }
            , requests := [.deleteReq fileId], log := ["Delete error:"] }) ∧
    (∀ m : String, jsOr (some m) "Unknown error"
        = if m = "" then "Unknown error" else m) ∧
    jsOr none "Unknown error" = "Unknown error" := by
  refine ⟨fun s fileId o => rfl, fun s fileId msg => rfl, fun s fileId b msg => rfl,
    fun s fileId msg => rfl, fun s fileId e => rfl, fun m => rfl, rfl⟩

/-- The images filter keeps every entry built from the selected images. -/
theorem filter_images_map_length (l : List String) :
    (List.filter (fun e => e.1 == "images")
      (l.map fun img => (("images" : String), img))).length = l.length := by
  induction l with
  | nil => rfl
  | cons a l ih => simpa using ih

/-- The multipart form carries one `images` entry per selected image. -/
theorem imagesCount_formEntries (file : String) (s : ClientState) :
    imagesCount (formEntries file s) = s.selectedImages.length := by
  unfold imagesCount formEntries
  split_ifs <;> simp [List.filter_append, filter_images_map_length]

/-- Every step keeps at most 5 selected images and only issues uploads whose
form has at most 5 `images` entries. -/
theorem stepApp_bounded_images (s : ClientState) (e : AppEvent)
    (h : s.selectedImages.length ≤ 5) :
    (stepApp s e).state.selectedImages.length ≤ 5 ∧
    ∀ ps, Request.uploadReq ps ∈ (stepApp s e).requests → imagesCount ps ≤ 5 := by
  cases e with
  | fileSelect f => exact ⟨h, by simp [stepApp]⟩
  | imageSelect chosen =>
    constructor
    · by_cases hc : chosen.length > 5
      · simpa [stepApp, handleImageSelect, hc] using h
      · simp only [stepApp, handleImageSelect, if_neg hc]
        omega
    · simp [stepApp]
  | editDescription d => exact ⟨h, by simp [stepApp]⟩
  | editCategory c => exact ⟨h, by simp [stepApp]⟩
  | upload o =>
    cases hsel : s.selectedFile with
    | none => exact ⟨by simpa [stepApp, handleUpload, hsel] using h
                   , by simp [stepApp, handleUpload, hsel]⟩
    | some f =>
      cases o with
      | ok =>
        refine ⟨by simp [stepApp, handleUpload, hsel], fun ps hps => ?_⟩
        simp [stepApp, handleUpload, hsel] at hps
        rw [hps, imagesCount_formEntries]
        exact h
      | httpError detail =>
        refine ⟨by simpa [stepApp, handleUpload, hsel] using h, fun ps hps => ?_⟩
        simp [stepApp, handleUpload, hsel] at hps
        rw [hps, imagesCount_formEntries]
        exact h
      | networkError =>
        refine ⟨by simpa [stepApp, handleUpload, hsel] using h, fun ps hps => ?_⟩
        simp [stepApp, handleUpload, hsel] at hps
        rw [hps, imagesCount_formEntries]
        exact h
  | download fileId o =>
    cases o <;> exact ⟨h, by simp [stepApp, handleDownload]⟩
  | deleteFile fileId confirmed o =>
    constructor
    · cases confirmed with
      | false => exact h
      | true =>
        cases o with
        | response a b m =>
          by_cases hab : (a && b) = true
          · simpa [stepApp, handleDelete, hab] using h
          · simpa [stepApp, handleDelete, hab] using h
        | networkError e => exact h
    · cases confirmed with
      | false => simp [stepApp, handleDelete]
      | true =>
        cases o with
        | response a b m =>
          by_cases hab : (a && b) = true
          · simp [stepApp, handleDelete, hab]
          · simp [stepApp, handleDelete, hab]
        | networkError e => simp [stepApp, handleDelete]
  | categoriesFetch o => cases o <;> exact ⟨h, by simp [stepApp, fetchCategoriesOp]⟩
  | filesFetch o => cases o <;> exact ⟨h, by simp [stepApp, fetchFilesOp]⟩
  | searchRun o => cases o <;> exact ⟨h, by simp [stepApp, searchFilesOp]⟩
  | statsFetch o => cases o <;> exact ⟨h, by simp [stepApp, fetchStatsOp]⟩
  | setSearch v => exact ⟨h, by simp [stepApp]⟩
  | setCategoryFilter v => exact ⟨h, by simp [stepApp]⟩
  | setFileTypeFilter v => exact ⟨h, by simp [stepApp]⟩
  | setSort b ord => exact ⟨h, by simp [stepApp]⟩
  | clearAllFilters => exact ⟨h, by simp [stepApp]⟩

/-- In any run starting from at most 5 selected images, every issued upload
form has at most 5 `images` entries. -/
theorem runApp_bounded_images (es : List AppEvent) :
    ∀ s : ClientState, s.selectedImages.length ≤ 5 →
      ∀ ps, Request.uploadReq ps ∈ (runApp s es).2 → imagesCount ps ≤ 5 := by
  induction es with
  | nil => intro s h ps hm; simp [runApp] at hm
  | cons e es ih =>
    intro s h ps hm
    simp only [runApp, List.mem_append] at hm
    rcases hm with hm | hm
    · exact (stepApp_bounded_images s e h).2 ps hm
    · exact ih _ (stepApp_bounded_images s e h).1 ps hm

/-- C4: choosing more than 5 images only sets the specific message, leaving
the image selection as it was, so in every run of the component from its
initial state each upload request that is ever issued carries at most 5
images; and with no file chosen the upload handler issues no request and sets
its specific message. -/
theorem C4_upload_validation :
    (∀ (s : ClientState) (chosen : List String), 5 < chosen.length →
        handleImageSelect s chosen = { s with message := "Maximum 5 images allowed" }) ∧
    (∀ (s : ClientState) (o : UploadOutcome),
        handleUpload { s with selectedFile := none } o
          = { state :=
                { s with
                  selectedFile := none,
                  message := "Please select a file first" }
            , requests := [], log := [] }) ∧
    (∀ (es : List AppEvent) (ps : List (String × String)),
        Request.uploadReq ps ∈ (runApp initState es).2 → imagesCount ps ≤ 5) := by
  refine ⟨fun s chosen hc => ?_, fun s o => rfl, fun es ps hm => ?_⟩
  · simp [handleImageSelect, hc]
  · exact runApp_bounded_images es initState (by simp [initState]) ps hm

/-- C4 witness: a six-image selection is rejected with the specific message at
a concrete state, and the upload issued by a concrete run carries at most 5
images. -/
theorem C4_upload_validation_witness :
    (5 < ([("a" : String), "b", "c", "d", "e", "f"]).length) ∧
    handleImageSelect initState ["a", "b", "c", "d", "e", "f"]
      = { initState with message := "Maximum 5 images allowed" } ∧
    Request.uploadReq [("file", "x"), ("category", "Other")]
      ∈ (runApp initState [.fileSelect (some "x"), .upload .ok]).2 ∧
    imagesCount [("file", "x"), ("category", "Other")] ≤ 5 :=
  ⟨by decide,
   C4_upload_validation.1 initState ["a", "b", "c", "d", "e", "f"] (by decide),
   by decide,
   C4_upload_validation.2.2 [.fileSelect (some "x"), .upload .ok]
     [("file", "x"), ("category", "Other")] (by decide)⟩

/-- A cancelled timer handle stays cancelled for the rest of the run. -/
theorem cancelled_mono (es : List QEvent) :
    ∀ s : QState, s.cancelled ⊆ (runQ s es).cancelled := by
  induction es with
  | nil => exact fun s a ha => ha
  | cons e es ih =>
    intro s
    refine List.Subset.trans ?_ (ih (stepQ s e))
    cases e with
    | input fd v =>
      cases hp : s.pending with
      | none => simp [stepQ, hp]
      | some t => intro a ha; simp [stepQ, hp]; right; exact ha
    | timerFire id =>
      by_cases hp : s.pending = some id <;> simp [stepQ, hp]
    | response id ok data =>
      by_cases hid : id ∈ s.inFlight <;> simp [stepQ, hid]

/-- Effect of a burst of input changes within one debounce window: no request
is issued, the inputs end at their final values, the timer scheduled by the
last change is the pending one, and every other timer — the previously pending
one and each one scheduled earlier in the burst — has been cancelled. -/
theorem debounce_burst (cs : List (Field × String)) :
    ∀ s : QState, cs ≠ [] →
      (runQ s (cs.map fun c => QEvent.input c.1 c.2)).issued = s.issued ∧
      (runQ s (cs.map fun c => QEvent.input c.1 c.2)).nextReq = s.nextReq ∧
      (runQ s (cs.map fun c => QEvent.input c.1 c.2)).inFlight = s.inFlight ∧
      (runQ s (cs.map fun c => QEvent.input c.1 c.2)).filters
        = cs.foldl (fun f c => setField f c.1 c.2) s.filters ∧
      (runQ s (cs.map fun c => QEvent.input c.1 c.2)).nextTimer
        = s.nextTimer + cs.length ∧
      (runQ s (cs.map fun c => QEvent.input c.1 c.2)).pending
        = some (s.nextTimer + (cs.length - 1)) ∧
      (∀ t, s.pending = some t →
        t ∈ (runQ s (cs.map fun c => QEvent.input c.1 c.2)).cancelled) ∧
      (∀ k, k < cs.length - 1 →
        s.nextTimer + k ∈ (runQ s (cs.map fun c => QEvent.input c.1 c.2)).cancelled) := by
  induction cs with
  | nil => exact fun s h => absurd rfl h
  | cons c cs ih =>
    intro s _
    by_cases hcs : cs = []
    · subst hcs
      refine ⟨rfl, rfl, rfl, rfl, rfl, rfl, ?_, ?_⟩
      · intro t ht
        simp [runQ, stepQ, ht]
      · intro k hk
        exact absurd hk (by simp)
    · obtain ⟨h1, h2, h3, h4, h5, h6, h7, h8⟩ := ih (stepQ s (.input c.1 c.2)) hcs
      have hl : 0 < cs.length := List.length_pos.mpr hcs
      refine ⟨h1, h2, h3, h4, ?_, ?_, ?_, ?_⟩
      · show (runQ (stepQ s (QEvent.input c.1 c.2))
            (cs.map fun c => QEvent.input c.1 c.2)).nextTimer
          = s.nextTimer + (c :: cs).length
        rw [h5]
        show s.nextTimer + 1 + cs.length = s.nextTimer + (c :: cs).length
        simp only [List.length_cons]
        omega
      · show (runQ (stepQ s (QEvent.input c.1 c.2))
            (cs.map fun c => QEvent.input c.1 c.2)).pending
          = some (s.nextTimer + ((c :: cs).length - 1))
        rw [h6]
        show some (s.nextTimer + 1 + (cs.length - 1))
          = some (s.nextTimer + ((c :: cs).length - 1))
        simp only [List.length_cons, Option.some.injEq]
        omega
      · intro t ht
        refine cancelled_mono _ (stepQ s (.input c.1 c.2)) ?_
        simp [stepQ, ht]
      · intro k hk
        simp only [List.length_cons, Nat.add_sub_cancel] at hk
        match k with
        | 0 => exact h7 s.nextTimer rfl
        | Nat.succ j =>
          have hj : j < cs.length - 1 := by omega
          have he : s.nextTimer + (j + 1) = (stepQ s (.input c.1 c.2)).nextTimer + j := by
            simp only [stepQ]
            omega
          rw [he]
          exact h8 j hj

/-- C9: any non-empty burst of changes to the five inputs inside one debounce
window issues no request while the window is open, cancels every timer but the
last (the previously pending one and each superseded one), and the surviving
timer dispatches exactly one request, built from the last-entered combination
of the five inputs; firing any other timer handle changes nothing. -/
theorem C9_one_call_last_combination (s : QState) (cs : List (Field × String))
    (h : cs ≠ []) :
    (runQ s (cs.map fun c => QEvent.input c.1 c.2)).issued = s.issued ∧
    (runQ s (cs.map fun c => QEvent.input c.1 c.2)).filters
      = cs.foldl (fun f c => setField f c.1 c.2) s.filters ∧
    (runQ s (cs.map fun c => QEvent.input c.1 c.2)).pending
      = some (s.nextTimer + (cs.length - 1)) ∧
    (∀ t, s.pending = some t →
      t ∈ (runQ s (cs.map fun c => QEvent.input c.1 c.2)).cancelled) ∧
    (∀ k, k < cs.length - 1 →
      s.nextTimer + k ∈ (runQ s (cs.map fun c => QEvent.input c.1 c.2)).cancelled) ∧
    (stepQ (runQ s (cs.map fun c => QEvent.input c.1 c.2))
        (.timerFire (s.nextTimer + (cs.length - 1)))).issued
      = s.issued
          ++ [debounceDispatch (cs.foldl (fun f c => setField f c.1 c.2) s.filters)] ∧
    (∀ id, id ≠ s.nextTimer + (cs.length - 1) →
      stepQ (runQ s (cs.map fun c => QEvent.input c.1 c.2)) (.timerFire id)
        = runQ s (cs.map fun c => QEvent.input c.1 c.2)) := by
  obtain ⟨h1, _, _, h4, _, h6, h7, h8⟩ := debounce_burst cs s h
  refine ⟨h1, h4, h6, h7, h8, ?_, ?_⟩
  · rw [show (QState.issued (stepQ (runQ s (cs.map fun c => QEvent.input c.1 c.2))
        (.timerFire (s.nextTimer + (cs.length - 1)))))
      = if (runQ s (cs.map fun c => QEvent.input c.1 c.2)).pending
          = some (s.nextTimer + (cs.length - 1))
        then (runQ s (cs.map fun c => QEvent.input c.1 c.2)).issued
          ++ [debounceDispatch (runQ s (cs.map fun c => QEvent.input c.1 c.2)).filters]
        else (runQ s (cs.map fun c => QEvent.input c.1 c.2)).issued from by
      simp only [stepQ]
      split <;> rfl]
    rw [if_pos h6, h1, h4]
  · intro id hid
    have hne : (runQ s (cs.map fun c => QEvent.input c.1 c.2)).pending ≠ some id := by
      rw [h6]
      intro hcon
      exact hid (Option.some.inj hcon).symm
    simp [stepQ, hne]

/-- C9 witness: a concrete two-change burst (search `g` then `ga`) from the
initial pipeline state issues nothing during the window, leaves timer 1
pending with timer 0 cancelled, and firing timer 1 issues the single search
request for the final input combination. -/
theorem C9_one_call_last_combination_witness :
    ([(Field.search, ("g" : String)), (Field.search, "ga")] ≠ []) ∧
    ((runQ initQ ([(Field.search, ("g" : String)), (Field.search, "ga")].map
        fun c => QEvent.input c.1 c.2)).issued = initQ.issued ∧
     (runQ initQ ([(Field.search, ("g" : String)), (Field.search, "ga")].map
        fun c => QEvent.input c.1 c.2)).filters
       = [(Field.search, ("g" : String)), (Field.search, "ga")].foldl
           (fun f c => setField f c.1 c.2) initQ.filters ∧
     (runQ initQ ([(Field.search, ("g" : String)), (Field.search, "ga")].map
        fun c => QEvent.input c.1 c.2)).pending = some 1 ∧
     (∀ t, initQ.pending = some t →
       t ∈ (runQ initQ ([(Field.search, ("g" : String)), (Field.search, "ga")].map
         fun c => QEvent.input c.1 c.2)).cancelled) ∧
     (∀ k, k < 1 →
       initQ.nextTimer + k ∈ (runQ initQ
         ([(Field.search, ("g" : String)), (Field.search, "ga")].map
           fun c => QEvent.input c.1 c.2)).cancelled) ∧
     (stepQ (runQ initQ ([(Field.search, ("g" : String)), (Field.search, "ga")].map
         fun c => QEvent.input c.1 c.2)) (.timerFire 1)).issued
       = initQ.issued
           ++ [debounceDispatch
                ([(Field.search, ("g" : String)), (Field.search, "ga")].foldl
                  (fun f c => setField f c.1 c.2) initQ.filters)] ∧
     (∀ id, id ≠ 1 →
       stepQ (runQ initQ ([(Field.search, ("g" : String)), (Field.search, "ga")].map
           fun c => QEvent.input c.1 c.2)) (.timerFire id)
         = runQ initQ ([(Field.search, ("g" : String)), (Field.search, "ga")].map
             fun c => QEvent.input c.1 c.2))) :=
  ⟨by decide,
   C9_one_call_last_combination initQ
     [(Field.search, ("g" : String)), (Field.search, "ga")] (by decide)⟩

end AppChecker
